import Mathlib

/-!
Verification of the ai-blog-agent pipeline: a shallow embedding of the
image acquisition waterfall (`src/services/image_handler.py`), the
WordPress publishing client (`src/services/wordpress_client.py`), the
content generator's link extraction and alt-text truncation
(`src/services/content_generator.py`), the Google-Sheets task source and
sink (`src/services/sheets_client.py`) and the orchestration agent
(`src/agents/blog_agent.py`), together with theorems settling the claims
about them.

External effects (HTTP calls, sheet updates) are modelled by explicit
`HttpResult` values supplied as inputs: `HttpResult.failure` stands for
any exception raised by the call (transport error, `raise_for_status`),
`HttpResult.success` for a successfully parsed response.  A Python
function that can raise is an `Except`-valued Lean function; a Python
function whose body catches its exceptions is a total Lean function.
-/

deriving instance DecidableEq for Except

/-- Outcome of one external call: a parsed response, or a raised exception
carrying its message. -/
inductive HttpResult (α : Type) where
  | success (val : α)
  | failure (msg : String)
deriving DecidableEq

/-- Whether `needle` occurs as a contiguous run inside `hay`. -/
def subOccurs (needle : List Char) : List Char → Bool
  | [] => needle.isEmpty
  | c :: rest => needle.isPrefixOf (c :: rest) || subOccurs needle rest

/-- Substring containment, the meaning of the Python expression
`needle in hay` on strings. -/
def containsSub (hay needle : String) : Bool :=
  subOccurs needle.data hay.data

/-- `ImageMetadata` model from `src/models/blog_post.py`. -/
structure ImageMetadata where
  url : String
  source : String
  alt_text : String
  photographer : Option String
  photographer_url : Option String
deriving DecidableEq

/-- One entry of the `photos` array of a Pexels search response, keeping
the fields `_try_pexels` reads. -/
structure PexelsPhoto where
  src_large : String
  photographer : Option String
  photographer_url : Option String
deriving DecidableEq

/-- One entry of the `results` array of an Unsplash search response,
keeping the fields `_try_unsplash` reads. -/
structure UnsplashPhoto where
  urls_regular : String
  user_name : Option String
  user_links_html : Option String
deriving DecidableEq

/-- `ImageHandler._try_pexels`: any raised exception is caught and `None`
returned; an empty `photos` array also yields `None`; otherwise the first
photo becomes an `ImageMetadata` with source `"pexels"` and empty alt
text (set later by the caller). -/
def tryPexels (resp : HttpResult (List PexelsPhoto)) : Option ImageMetadata :=
  match resp with
  | HttpResult.failure _ => none
  | HttpResult.success photos =>
    match photos with
    | [] => none
    | p :: _ =>
      some { url := p.src_large, source := "pexels", alt_text := "",
             photographer := p.photographer,
             photographer_url := p.photographer_url }

/-- `ImageHandler._try_unsplash`: same shape as `tryPexels`, over the
`results` array, source `"unsplash"`. -/
def tryUnsplash (resp : HttpResult (List UnsplashPhoto)) : Option ImageMetadata :=
  match resp with
  | HttpResult.failure _ => none
  | HttpResult.success results =>
    match results with
    | [] => none
    | p :: _ =>
      some { url := p.urls_regular, source := "unsplash", alt_text := "",
             photographer := p.user_name,
             photographer_url := p.user_links_html }

/-- `ImageHandler._generate_dalle`: any raised exception is caught and
`None` returned; on success the generated URL becomes an `ImageMetadata`
with source `"dalle"` and the alt text already attached. -/
def generateDalle (resp : HttpResult String) (alt_text : String) : Option ImageMetadata :=
  match resp with
  | HttpResult.failure _ => none
  | HttpResult.success url =>
    some { url := url, source := "dalle", alt_text := alt_text,
           photographer := some "AI Generated", photographer_url := none }

/-- Body of `ImageHandler.get_image_for_topic` on one set of provider
responses: try Pexels, on success attach the alt text and return; else
try Unsplash under the same rule; else fall back to DALL-E. -/
def getImageForTopic (pResp : HttpResult (List PexelsPhoto))
    (uResp : HttpResult (List UnsplashPhoto)) (dResp : HttpResult String)
    (alt_text : String) : Option ImageMetadata :=
  match tryPexels pResp with
  | some img => some { img with alt_text := alt_text }
  | none =>
    match tryUnsplash uResp with
    | some img => some { img with alt_text := alt_text }
    | none => generateDalle dResp alt_text

/-- The external world seen by one `get_image_for_topic` invocation:
for each provider, the stream of responses its successive calls would
receive (head = first call). -/
structure ImgEnv where
  pexels : List (HttpResult (List PexelsPhoto))
  unsplash : List (HttpResult (List UnsplashPhoto))
  dalle : List (HttpResult String)
deriving DecidableEq

/-- A provider call on an exhausted stream, like an unreachable server,
raises. -/
def noResp {α : Type} : HttpResult α := HttpResult.failure "no response"

/-- The tenacity decorator `retry(stop=stop_after_attempt(3), ...)`:
run the wrapped operation; if it raises, run it again, up to three
attempts; the third attempt's outcome, raised or returned, goes to the
caller. -/
def tenacityRetry3 {α : Type} (op : Nat → Except String α) : Except String α :=
  match op 1 with
  | Except.ok a => Except.ok a
  | Except.error _ =>
    match op 2 with
    | Except.ok a => Except.ok a
    | Except.error _ => op 3

/-- One pass of the waterfall body over the environment: each provider
helper, when reached, consumes the first unconsumed response of its
stream.  The body catches every provider exception internally, so it
never raises: its `Except` is always `ok`. -/
def waterfallBody (env : ImgEnv) (alt_text : String) :
    Except String (Option ImageMetadata) :=
  Except.ok (getImageForTopic (env.pexels.headD noResp)
    (env.unsplash.headD noResp) (env.dalle.headD noResp) alt_text)

/-- The decorated `get_image_for_topic` as the code has it: the retry
wrapper around the whole waterfall body. -/
def codeGetImage (env : ImgEnv) (alt_text : String) : Option ImageMetadata :=
  match tenacityRetry3 (fun _ => waterfallBody env alt_text) with
  | Except.ok r => r
  | Except.error _ => none

/-- Up to three attempts of one raw provider call over its response
stream: the first successful response within the first three wins;
otherwise the last failure seen stands. -/
def retryHttp3 {α : Type} : List (HttpResult α) → Nat → HttpResult α
  | [], _ => noResp
  | r :: _, 0 => r
  | r :: rest, n + 1 =>
    match r with
    | HttpResult.success v => HttpResult.success v
    | HttpResult.failure e =>
      match rest with
      | [] => HttpResult.failure e
      | _ :: _ => retryHttp3 rest n

/-- Modelled from the spec: the waterfall as the spec describes it, with
the bounded retry (up to 3 attempts) applied independently to each
individual provider call rather than to the waterfall as a whole. -/
def specGetImage (env : ImgEnv) (alt_text : String) : Option ImageMetadata :=
  match tryPexels (retryHttp3 env.pexels 2) with
  | some img => some { img with alt_text := alt_text }
  | none =>
    match tryUnsplash (retryHttp3 env.unsplash 2) with
    | some img => some { img with alt_text := alt_text }
    | none => generateDalle (retryHttp3 env.dalle 2) alt_text

/-- Is this `Except` a raised exception? -/
def isErr {α : Type} : Except String α → Bool
  | Except.error _ => true
  | Except.ok _ => false

/-- Body of `WordPressClient.upload_featured_image` on one media-upload
response: the whole body sits in `try ... except Exception`, so a raised
call is caught and `None` returned; on success the new media id is
returned. -/
def uploadFeaturedImageBody (resp : HttpResult Nat) : Option Nat :=
  match resp with
  | HttpResult.failure _ => none
  | HttpResult.success mediaId => some mediaId

/-- The decorated `upload_featured_image`: the retry wrapper around the
body, each attempt consuming the next response of the stream. -/
def uploadFeaturedImage (resps : List (HttpResult Nat)) : Except String (Option Nat) :=
  tenacityRetry3 (fun k => Except.ok (uploadFeaturedImageBody (resps.getD (k - 1) noResp)))

/-- Body of `WordPressClient.create_post` on one post-creation response:
a featured image is uploaded first when image data is present; the post
POST sits in `try ... except requests.exceptions.RequestException`, so a
raised call is caught and `None` returned; on success the created post's
id is returned. -/
def createPostBody (imageResps : Option (List (HttpResult Nat)))
    (postResp : HttpResult Nat) : Option Nat :=
  let _featured : Option Nat :=
    match imageResps with
    | none => none
    | some rs =>
      match uploadFeaturedImage rs with
      | Except.ok v => v
      | Except.error _ => none
  match postResp with
  | HttpResult.failure _ => none
  | HttpResult.success postId => some postId

/-- The decorated `create_post`: the retry wrapper around the body, each
attempt consuming the next post-creation response of the stream. -/
def createPost (imageResps : Option (List (HttpResult Nat)))
    (postResps : List (HttpResult Nat)) : Except String (Option Nat) :=
  tenacityRetry3 (fun k => Except.ok (createPostBody imageResps (postResps.getD (k - 1) noResp)))

/-- `BlogTopic` model from `src/models/blog_post.py`. -/
structure BlogTopic where
  topic : String
  business_type : String
  location : String
  internal_links : List String
  site_domain : String
  row_number : Nat
deriving DecidableEq

/-- An anchor href counted as internal by `generate_blog_content`: some
candidate internal URL occurs inside it. -/
def isInternalLink (internal_links : List String) (link : String) : Bool :=
  internal_links.any (fun internal => containsSub link internal)

/-- An anchor href counted as outbound by `generate_blog_content`: it is
not internal and the site domain does not occur inside it. -/
def isOutboundLink (internal_links : List String) (site_domain : String)
    (link : String) : Bool :=
  !isInternalLink internal_links link && !containsSub link site_domain

/-- The link-classification loop of
`ContentGenerator.generate_blog_content` over the extracted anchor
hrefs, carried state: the internal links collected so far and the
current outbound link. -/
def extractLinksGo (internal_links : List String) (site_domain : String) :
    List String → List String × Option String → List String × Option String
  | [], acc => acc
  | link :: rest, acc =>
    if isInternalLink internal_links link then
      extractLinksGo internal_links site_domain rest (acc.1 ++ [link], acc.2)
    else if !containsSub link site_domain then
      extractLinksGo internal_links site_domain rest (acc.1, some link)
    else
      extractLinksGo internal_links site_domain rest acc

/-- Link classification of `generate_blog_content`: the collected
internal links and the retained outbound link. -/
def extractLinks (internal_links : List String) (site_domain : String)
    (anchors : List String) : List String × Option String :=
  extractLinksGo internal_links site_domain anchors ([], none)

/-- Characters Python's `.strip('"\'')` removes from both ends of the
generated alt text: the double and the single quote. -/
def quoteChars : List Char := [Char.ofNat 34, Char.ofNat 39]

/-- Remove leading and trailing characters drawn from `cs`, the meaning
of Python's `str.strip(chars)`. -/
def stripSet (cs : List Char) (s : String) : String :=
  String.mk (((s.data.dropWhile (fun c => cs.contains c)).reverse.dropWhile
    (fun c => cs.contains c)).reverse)

/-- Remove leading and trailing whitespace, the meaning of Python's
bare `str.strip()`. -/
def pyStrip (s : String) : String :=
  String.mk (((s.data.dropWhile Char.isWhitespace).reverse.dropWhile
    Char.isWhitespace).reverse)

/-- The first `n` characters of a string, the meaning of Python's
slice `s[:n]`. -/
def pyTake (s : String) (n : Nat) : String :=
  String.mk (s.data.take n)

/-- Lowercase every character, the meaning of Python's `str.lower()` on
the ASCII range. -/
def pyLower (s : String) : String :=
  String.mk (s.data.map Char.toLower)

/-- Split on commas, the meaning of Python's `s.split(",")`: `acc` holds
the reversed characters of the piece being read. -/
def splitCommas : List Char → List Char → List String
  | [], acc => [String.mk acc.reverse]
  | c :: rest, acc =>
    if c = ',' then String.mk acc.reverse :: splitCommas rest []
    else splitCommas rest (c :: acc)

/-- `ContentGenerator.generate_alt_text` applied to the text the chat
API returned: strip whitespace, strip surrounding quotes, then truncate
to 125 characters. -/
def generate_alt_text (apiText : String) : String :=
  pyTake (stripSet quoteChars (pyStrip apiText)) 125

/-- One row of the Topics worksheet as `get_all_records` returns it,
keeping the columns `get_pending_topics` and `from_sheet_row` read; a
missing cell reads as the empty string. -/
structure SheetRow where
  topic : String
  business_type : String
  location : String
  internal_link_urls : String
  site_domain : String
  status : String
deriving DecidableEq

/-- `BlogTopic.from_sheet_row`: split the internal-link cell on commas,
strip each piece, drop empty pieces. -/
def fromSheetRow (row : SheetRow) (row_number : Nat) : BlogTopic :=
  { topic := row.topic, business_type := row.business_type,
    location := row.location,
    internal_links := ((splitCommas row.internal_link_urls.data []).map
      pyStrip).filter (fun link => link ≠ ""),
    site_domain := row.site_domain, row_number := row_number }

/-- The skip test of `get_pending_topics`: the row's Status, stripped
and lowercased, is one of `completed`, `processing`, `failed`. -/
def statusExcluded (status : String) : Bool :=
  ["completed", "processing", "failed"].contains (pyLower (pyStrip status))

/-- Python truthiness of the optional `limit` argument followed by the
bound test `len(topics) >= limit`: `None` and `0` are falsy, so the
bound only bites for a nonzero limit. -/
def limitReached (limit : Option Nat) (count : Nat) : Bool :=
  match limit with
  | none => false
  | some n => decide (n ≠ 0) && decide (count ≥ n)

/-- The collection loop of `SheetsClient.get_pending_topics`: rows are
enumerated from sheet row 2, excluded statuses are skipped, and after a
row is appended the loop breaks once the limit is reached. -/
def collectPending (limit : Option Nat) :
    List SheetRow → Nat → Nat → List BlogTopic
  | [], _, _ => []
  | row :: rest, idx, count =>
    if statusExcluded row.status then
      collectPending limit rest (idx + 1) count
    else
      let t := fromSheetRow row idx
      if limitReached limit (count + 1) then [t]
      else t :: collectPending limit rest (idx + 1) (count + 1)

/-- `SheetsClient.get_pending_topics` over the records of the Topics
worksheet. -/
def get_pending_topics (rows : List SheetRow) (limit : Option Nat) : List BlogTopic :=
  collectPending limit rows 2 0

/-- `PostLog` model from `src/models/blog_post.py`, the shape of one
appended log row (the timestamp column is left out). -/
structure PostLog where
  site : String
  post_title : String
  post_url : Option String
  status : String
  word_count : Nat
  topic : String
  error_message : Option String
deriving DecidableEq

/-- The task sink's visible state: the trace of status updates written
to the Topics worksheet (row number, status, optional post URL) and the
rows appended to the Logs worksheet. -/
structure SheetState where
  statusUpdates : List (Nat × String × Option String)
  logRows : List PostLog
deriving DecidableEq

/-- The successful branch of `mark_topic_status`: record the update. -/
def pushStatus (st : SheetState) (row : Nat) (status : String)
    (post_url : Option String) : SheetState :=
  { st with statusUpdates := st.statusUpdates ++ [(row, status, post_url)] }

/-- The successful branch of `log_post_result`: append the log row. -/
def pushLog (st : SheetState) (pl : PostLog) : SheetState :=
  { st with logRows := st.logRows ++ [pl] }

/-- `SheetsClient.mark_topic_status`: the worksheet operations sit in
`try ... except Exception`, so a raised sheet call is caught, only
logged, and the method returns normally with nothing recorded. -/
def mark_topic_status (sheetOp : HttpResult Unit) (st : SheetState)
    (row : Nat) (status : String) (post_url : Option String) : SheetState :=
  match sheetOp with
  | HttpResult.failure _ => st
  | HttpResult.success _ => pushStatus st row status post_url

/-- `SheetsClient.log_post_result`: returns at once when logging to the
sheet is disabled; otherwise the worksheet operations sit in
`try ... except Exception`, so a raised sheet call is caught, only
logged, and the method returns normally with nothing appended. -/
def log_post_result (log_to_sheet : Bool) (sheetOp : HttpResult Unit)
    (st : SheetState) (pl : PostLog) : SheetState :=
  if log_to_sheet then
    match sheetOp with
    | HttpResult.failure _ => st
    | HttpResult.success _ => pushLog st pl
  else st

/-- `SEOMetadata` model, keeping the field the orchestrator reads. -/
structure SEOMetadata where
  title : String
deriving DecidableEq

/-- `GeneratedContent` model, keeping the field the orchestrator reads. -/
structure GeneratedContent where
  word_count : Nat
deriving DecidableEq

/-- The created WordPress post as the orchestrator reads it. -/
structure PostInfo where
  link : String
  id : Nat
deriving DecidableEq

/-- Outcomes of the pipeline steps of `process_topic` for one WorkItem:
the generation steps may raise (`Except.error` carries the message);
image acquisition and download never raise and yield an `Option`; the
connection test yields a `Bool`; decorated `create_post` yields an
`Option`. -/
structure StepEnv where
  seo : Except String SEOMetadata
  content : Except String GeneratedContent
  taxonomy : Except String (List String × List String)
  altText : Except String String
  image : Option ImageMetadata
  wpConnected : Bool
  postResult : Option PostInfo
deriving DecidableEq

/-- Outcomes of the three sheet-sink calls one `process_topic` run
makes: the initial `Processing` mark, the final `Completed`/`Failed`
mark, and the log append. -/
structure SheetEnv where
  markProcessing : HttpResult Unit
  markFinal : HttpResult Unit
  logOp : HttpResult Unit
deriving DecidableEq

/-- The log row the failure branch of `process_topic` appends. -/
def failLog (site_name : String) (topic : BlogTopic) (e : String) : PostLog :=
  { site := site_name, post_title := topic.topic, post_url := none,
    status := "Failed", word_count := 0, topic := topic.topic,
    error_message := some e }

/-- The log row the success branch of `process_topic` appends. -/
def successLog (site_name : String) (seo : SEOMetadata)
    (content : GeneratedContent) (post : PostInfo) (topic : BlogTopic) : PostLog :=
  { site := site_name, post_title := seo.title, post_url := some post.link,
    status := "Success", word_count := content.word_count,
    topic := topic.topic, error_message := none }

/-- The `except` clause of `process_topic`: mark the task `Failed` and
append a failure log row carrying the error text, then report `False`. -/
def failFinish (log_to_sheet : Bool) (sheet : SheetEnv) (site_name : String)
    (topic : BlogTopic) (e : String) (st : SheetState) : Bool × SheetState :=
  let st2 := mark_topic_status sheet.markFinal st topic.row_number "Failed" none
  let st3 := log_post_result log_to_sheet sheet.logOp st2 (failLog site_name topic e)
  (false, st3)

/-- `BlogAgent.process_topic`: mark `Processing`, run the generation
steps in order, publish, then mark `Completed` and append a success log
row; any raised step diverts to `failFinish`, aborting the remaining
steps. -/
def process_topic (log_to_sheet : Bool) (env : StepEnv) (sheet : SheetEnv)
    (site_name : String) (topic : BlogTopic) (st : SheetState) :
    Bool × SheetState :=
  let st1 := mark_topic_status sheet.markProcessing st topic.row_number "Processing" none
  match env.seo with
  | Except.error e => failFinish log_to_sheet sheet site_name topic e st1
  | Except.ok seo =>
  match env.content with
  | Except.error e => failFinish log_to_sheet sheet site_name topic e st1
  | Except.ok content =>
  match env.taxonomy with
  | Except.error e => failFinish log_to_sheet sheet site_name topic e st1
  | Except.ok _taxonomy =>
  match env.altText with
  | Except.error e => failFinish log_to_sheet sheet site_name topic e st1
  | Except.ok _alt =>
  if env.wpConnected = false then
    failFinish log_to_sheet sheet site_name topic "WordPress connection failed" st1
  else
    match env.postResult with
    | none => failFinish log_to_sheet sheet site_name topic
        "WordPress post creation failed" st1
    | some post =>
      let st2 := mark_topic_status sheet.markFinal st1 topic.row_number
        "Completed" (some post.link)
      let st3 := log_post_result log_to_sheet sheet.logOp st2
        (successLog site_name seo content post topic)
      (true, st3)

/-- A configured WordPress site, keeping the fields the agent reads. -/
structure WPSite where
  name : String
  url : String
deriving DecidableEq

/-- `BlogAgent._find_site_for_domain`: the first configured site whose
lowercased URL contains the lowercased domain. -/
def find_site_for_domain (sites : List WPSite) (domain : String) : Option WPSite :=
  sites.find? (fun site => containsSub (pyLower site.url) (pyLower domain))

/-- One WorkItem of a batch: the topic and the outcomes of the external
calls its processing makes. -/
structure BatchItem where
  topic : BlogTopic
  env : StepEnv
  sheet : SheetEnv
deriving DecidableEq

/-- The statistics dict `process_batch` returns. -/
structure BatchStats where
  success : Nat
  failed : Nat
  total : Nat
deriving DecidableEq

/-- The topic loop of `BlogAgent.process_batch`: a WorkItem with no
matching configured site only counts as failed; otherwise the item is
processed and counted by its outcome; every iteration continues with the
next WorkItem. -/
def processBatchGo (log_to_sheet : Bool) (sites : List WPSite) :
    List BatchItem → BatchStats → SheetState → BatchStats × SheetState
  | [], stats, st => (stats, st)
  | item :: rest, stats, st =>
    match find_site_for_domain sites item.topic.site_domain with
    | none =>
      processBatchGo log_to_sheet sites rest
        { stats with failed := stats.failed + 1 } st
    | some site =>
      if (process_topic log_to_sheet item.env item.sheet site.name item.topic st).1 then
        processBatchGo log_to_sheet sites rest
          { stats with success := stats.success + 1 }
          (process_topic log_to_sheet item.env item.sheet site.name item.topic st).2
      else
        processBatchGo log_to_sheet sites rest
          { stats with failed := stats.failed + 1 }
          (process_topic log_to_sheet item.env item.sheet site.name item.topic st).2

/-- `BlogAgent.process_batch` over an already-fetched list of pending
WorkItems. -/
def process_batch (log_to_sheet : Bool) (sites : List WPSite)
    (items : List BatchItem) (st : SheetState) : BatchStats × SheetState :=
  processBatchGo log_to_sheet sites items
    { success := 0, failed := 0, total := items.length } st

/-- The error text the `except` clause of `process_topic` sees when some
step fails: the message of the first failing step, in step order. -/
def firstFailure (env : StepEnv) : Option String :=
  match env.seo with
  | Except.error e => some e
  | Except.ok _ =>
  match env.content with
  | Except.error e => some e
  | Except.ok _ =>
  match env.taxonomy with
  | Except.error e => some e
  | Except.ok _ =>
  match env.altText with
  | Except.error e => some e
  | Except.ok _ =>
  if env.wpConnected = false then some "WordPress connection failed"
  else
    match env.postResult with
    | none => some "WordPress post creation failed"
    | some _ => none

/-- The first `some` of a list-shaped scan, else the default: used to
express which outbound link survives the classification loop. -/
def lastOr {α : Type} (l : List α) (d : Option α) : Option α :=
  match l.getLast? with
  | some x => some x
  | none => d

/-- Claim C1: the image waterfall tries Pexels first; on success the alt
text is attached and that result returned with Unsplash and DALL-E never
consulted; otherwise Unsplash is tried under the same rule; if both
fail, DALL-E is the fallback; the run yields nothing exactly when all
three tiers yield nothing, so exactly one of the four outcomes happens,
in that fixed order. -/
theorem C1_image_waterfall (p : HttpResult (List PexelsPhoto))
    (u : HttpResult (List UnsplashPhoto)) (d : HttpResult String) (a : String) :
    (∀ img, tryPexels p = some img →
      getImageForTopic p u d a = some { img with alt_text := a }
        ∧ ∀ u' d', getImageForTopic p u' d' a = some { img with alt_text := a })
  ∧ (tryPexels p = none → ∀ img, tryUnsplash u = some img →
      getImageForTopic p u d a = some { img with alt_text := a }
        ∧ ∀ d', getImageForTopic p u d' a = some { img with alt_text := a })
  ∧ (tryPexels p = none → tryUnsplash u = none →
      getImageForTopic p u d a = generateDalle d a)
  ∧ (getImageForTopic p u d a = none ↔
      tryPexels p = none ∧ tryUnsplash u = none ∧ generateDalle d a = none) := by
  unfold getImageForTopic
  cases hp : tryPexels p <;> cases hu : tryUnsplash u <;>
    simp_all

/-- Witness for C1 at a concrete Pexels success: the Pexels photo is
returned with the alt text attached, the other tiers failing. -/
theorem C1_image_waterfall_witness :
    getImageForTopic
      (HttpResult.success [⟨"https://img.example/p.jpg", some "Ann", none⟩])
      (HttpResult.failure "timeout") (HttpResult.failure "timeout") "a cafe" =
    some ⟨"https://img.example/p.jpg", "pexels", "a cafe", some "Ann", none⟩ :=
  ((C1_image_waterfall
      (HttpResult.success [⟨"https://img.example/p.jpg", some "Ann", none⟩])
      (HttpResult.failure "timeout") (HttpResult.failure "timeout") "a cafe").1
    ⟨"https://img.example/p.jpg", "pexels", "", some "Ann", none⟩ rfl).1

/-- Counterexample for C2: with a Pexels stream whose first call raises
and whose second call would succeed, and a succeeding Unsplash, the code
(retry around the whole waterfall, providers catching their own
exceptions) returns the Unsplash image, while per-provider retry as the
claim states it would return the Pexels image. -/
theorem C2_counterexample :
    codeGetImage
      ⟨[HttpResult.failure "timeout", HttpResult.success [⟨"p.jpg", none, none⟩]],
       [HttpResult.success [⟨"u.jpg", none, none⟩]], []⟩ "alt"
      ≠
    specGetImage
      ⟨[HttpResult.failure "timeout", HttpResult.success [⟨"p.jpg", none, none⟩]],
       [HttpResult.success [⟨"u.jpg", none, none⟩]], []⟩ "alt"
  ∧ codeGetImage
      ⟨[HttpResult.failure "timeout", HttpResult.success [⟨"p.jpg", none, none⟩]],
       [HttpResult.success [⟨"u.jpg", none, none⟩]], []⟩ "alt" =
      some ⟨"u.jpg", "unsplash", "alt", none, none⟩
  ∧ specGetImage
      ⟨[HttpResult.failure "timeout", HttpResult.success [⟨"p.jpg", none, none⟩]],
       [HttpResult.success [⟨"u.jpg", none, none⟩]], []⟩ "alt" =
      some ⟨"p.jpg", "pexels", "alt", none, none⟩ := by
  refine ⟨?_, rfl, rfl⟩
  decide

/-- Claim C2 amended: the bounded retry wraps `get_image_for_topic` as a
whole, not the individual provider calls; since every provider helper
catches its own exceptions the wrapped body never raises, so the
decorated call runs a single waterfall pass over each provider's first
response: a provider that fails once is skipped in favor of the next
tier, never re-called. -/
theorem C2_retry_wraps_waterfall (env : ImgEnv) (a : String) :
    codeGetImage env a =
      getImageForTopic (env.pexels.headD noResp) (env.unsplash.headD noResp)
        (env.dalle.headD noResp) a
  ∧ tenacityRetry3 (fun _ => waterfallBody env a) =
      Except.ok (codeGetImage env a) :=
  ⟨rfl, rfl⟩

/-- Counterexample for C3: with every attempt's response a raised HTTP
error, the decorated media upload and post creation do not surface any
failure: both return `None` wrapped in a normal return, because each
body catches its exceptions before the retry wrapper can see them. -/
theorem C3_counterexample :
    isErr (uploadFeaturedImage [HttpResult.failure "HTTP 500",
      HttpResult.failure "HTTP 500", HttpResult.failure "HTTP 500"]) = false
  ∧ uploadFeaturedImage [HttpResult.failure "HTTP 500",
      HttpResult.failure "HTTP 500", HttpResult.failure "HTTP 500"] =
      Except.ok none
  ∧ isErr (createPost none [HttpResult.failure "HTTP 500",
      HttpResult.failure "HTTP 500", HttpResult.failure "HTTP 500"]) = false
  ∧ createPost none [HttpResult.failure "HTTP 500",
      HttpResult.failure "HTTP 500", HttpResult.failure "HTTP 500"] =
      Except.ok none :=
  ⟨rfl, rfl, rfl, rfl⟩

/-- Claim C3 amended: the publishing client's post creation and media
upload catch their failures inside their own bodies and return `None`,
so the retry wrapper never observes an exception: only the first attempt
runs, and on failure the caller receives a normally returned `None`
rather than the last failure. -/
theorem C3_failures_swallowed (imageResps : Option (List (HttpResult Nat)))
    (uploadResps postResps : List (HttpResult Nat)) :
    uploadFeaturedImage uploadResps =
      Except.ok (uploadFeaturedImageBody (uploadResps.getD 0 noResp))
  ∧ createPost imageResps postResps =
      Except.ok (createPostBody imageResps (postResps.getD 0 noResp))
  ∧ isErr (uploadFeaturedImage uploadResps) = false
  ∧ isErr (createPost imageResps postResps) = false :=
  ⟨rfl, rfl, rfl, rfl⟩

theorem lastOr_of_ne_nil {α : Type} (l : List α) (ob : Option α)
    (h : l ≠ []) : lastOr l ob = l.getLast? := by
  cases hl : l.getLast? with
  | some x => simp [lastOr, hl]
  | none => exact absurd (List.getLast?_eq_none_iff.mp hl) h

theorem lastOr_cons {α : Type} (a : α) (t : List α) (ob : Option α) :
    lastOr (a :: t) ob = lastOr t (some a) := by
  cases t with
  | nil => simp [lastOr]
  | cons b t' =>
    rw [lastOr_of_ne_nil (a :: b :: t') ob (by simp),
      lastOr_of_ne_nil (b :: t') (some a) (by simp),
      List.getLast?_cons_cons]

theorem lastOr_none {α : Type} (l : List α) : lastOr l none = l.getLast? := by
  cases h : l.getLast? <;> simp [lastOr, h]

theorem extractLinksGo_spec (ils : List String) (dom : String)
    (anchors : List String) : ∀ ius ob,
    extractLinksGo ils dom anchors (ius, ob) =
      (ius ++ anchors.filter (fun l => isInternalLink ils l),
       lastOr (anchors.filter (fun l => isOutboundLink ils dom l)) ob) := by
  induction anchors with
  | nil => intro ius ob; simp [extractLinksGo, lastOr]
  | cons a rest ih =>
    intro ius ob
    by_cases h1 : isInternalLink ils a
    · have hout : isOutboundLink ils dom a = false := by
        simp [isOutboundLink, h1]
      simp [extractLinksGo, h1, hout, ih, List.filter_cons]
    · by_cases h2 : containsSub a dom
      · have hout : isOutboundLink ils dom a = false := by
          simp [isOutboundLink, h1, h2]
        simp [extractLinksGo, h1, h2, hout, ih, List.filter_cons]
      · have hout : isOutboundLink ils dom a = true := by
          simp [isOutboundLink, h1, h2]
        simp [extractLinksGo, h1, h2, hout, ih, List.filter_cons, lastOr_cons]

/-- Counterexample for C4: with internal candidate `https://ex.com/a`
and site domain `ex.com`, the anchors `https://wikipedia.org/x` and
`https://nih.gov/y` are both classified outbound, and the retained
outbound link is the second one found, not the first. -/
theorem C4_counterexample :
    isOutboundLink ["https://ex.com/a"] "ex.com" "https://wikipedia.org/x" = true
  ∧ isOutboundLink ["https://ex.com/a"] "ex.com" "https://nih.gov/y" = true
  ∧ (extractLinks ["https://ex.com/a"] "ex.com"
      ["https://wikipedia.org/x", "https://nih.gov/y"]).2 = some "https://nih.gov/y"
  ∧ some "https://nih.gov/y" ≠ some "https://wikipedia.org/x" := by
  refine ⟨by decide, by decide, by decide, by decide⟩

/-- Claim C4 amended: an extracted anchor href in which one of the
WorkItem's candidate internal URLs occurs is classified internal; an
anchor that is not internal and in which the site domain does not occur
is classified outbound; when two or more outbound links are present, the
LAST outbound link found is retained (each outbound anchor overwrites
the previous one). -/
theorem C4_link_extraction (internal_links : List String)
    (site_domain : String) (anchors : List String) :
    (extractLinks internal_links site_domain anchors).1 =
      anchors.filter (fun l => isInternalLink internal_links l)
  ∧ (extractLinks internal_links site_domain anchors).2 =
      (anchors.filter (fun l => isOutboundLink internal_links site_domain l)).getLast? := by
  unfold extractLinks
  rw [extractLinksGo_spec]
  exact ⟨by simp, lastOr_none _⟩

theorem process_topic_of_failure (lts : Bool) (env : StepEnv) (sheet : SheetEnv)
    (name : String) (topic : BlogTopic) (st : SheetState) (e : String)
    (h : firstFailure env = some e) :
    process_topic lts env sheet name topic st =
      failFinish lts sheet name topic e
        (mark_topic_status sheet.markProcessing st topic.row_number "Processing" none) := by
  unfold firstFailure at h
  unfold process_topic
  cases hseo : env.seo with
  | error e1 => simp_all
  | ok seo =>
    cases hcon : env.content with
    | error e1 => simp_all
    | ok content =>
      cases htax : env.taxonomy with
      | error e1 => simp_all
      | ok tax =>
        cases halt : env.altText with
        | error e1 => simp_all
        | ok alt =>
          cases hwp : env.wpConnected with
          | false => simp_all
          | true =>
            cases hpost : env.postResult with
            | none => simp_all
            | some post => simp_all

theorem processBatchGo_counts (lts : Bool) (sites : List WPSite)
    (items : List BatchItem) : ∀ stats st,
    ((processBatchGo lts sites items stats st).1.success +
        (processBatchGo lts sites items stats st).1.failed =
      stats.success + stats.failed + items.length)
  ∧ (processBatchGo lts sites items stats st).1.total = stats.total := by
  induction items with
  | nil => intro stats st; simp [processBatchGo]
  | cons item rest ih =>
    intro stats st
    unfold processBatchGo
    cases hfind : find_site_for_domain sites item.topic.site_domain with
    | none =>
      have h := ih { stats with failed := stats.failed + 1 } st
      dsimp only at h ⊢
      simp only [List.length_cons]
      exact ⟨by omega, h.2⟩
    | some site =>
      cases hr : (process_topic lts item.env item.sheet site.name item.topic st).1 with
      | true =>
        have h := ih { stats with success := stats.success + 1 }
          (process_topic lts item.env item.sheet site.name item.topic st).2
        dsimp only at h ⊢
        simp only [hr, List.length_cons, if_true]
        exact ⟨by omega, h.2⟩
      | false =>
        have h := ih { stats with failed := stats.failed + 1 }
          (process_topic lts item.env item.sheet site.name item.topic st).2
        dsimp only at h ⊢
        simp only [hr, Bool.false_eq_true, if_false, List.length_cons]
        exact ⟨by omega, h.2⟩

/-- Claim C5: a raised failure at any pipeline step makes `process_topic`
take the failure path, aborting the remaining steps: it reports `False`,
marks the task `Failed` after the initial `Processing` mark, and appends
a failure log row carrying the error text; and batch processing counts
every WorkItem of the batch regardless, continuing with the next one. -/
theorem C5_failure_handling (lts : Bool) (env : StepEnv) (sheet : SheetEnv)
    (name : String) (topic : BlogTopic) (st : SheetState) (e : String)
    (h : firstFailure env = some e) :
    process_topic lts env sheet name topic st =
      failFinish lts sheet name topic e
        (mark_topic_status sheet.markProcessing st topic.row_number "Processing" none)
  ∧ (process_topic lts env sheet name topic st).1 = false
  ∧ (lts = true → sheet.markProcessing = HttpResult.success () →
      sheet.markFinal = HttpResult.success () → sheet.logOp = HttpResult.success () →
      (process_topic lts env sheet name topic st).2.statusUpdates =
        st.statusUpdates ++ [(topic.row_number, "Processing", none),
          (topic.row_number, "Failed", none)]
      ∧ (process_topic lts env sheet name topic st).2.logRows =
        st.logRows ++ [failLog name topic e])
  ∧ (∀ sites items st0,
      (process_batch lts sites items st0).1.success +
          (process_batch lts sites items st0).1.failed =
        (process_batch lts sites items st0).1.total
      ∧ (process_batch lts sites items st0).1.total = items.length) := by
  have hmain := process_topic_of_failure lts env sheet name topic st e h
  refine ⟨hmain, ?_, ?_, ?_⟩
  · rw [hmain]; rfl
  · intro hlts h1 h2 h3
    rw [hmain, hlts, h1]
    simp [failFinish, mark_topic_status, pushStatus, log_post_result, pushLog,
      h2, h3]
  · intro sites items st0
    have h1 := processBatchGo_counts lts sites items
      { success := 0, failed := 0, total := items.length } st0
    dsimp only at h1
    unfold process_batch
    exact ⟨by omega, h1.2⟩

/-- Witness for C5 at a concrete WorkItem whose SEO-generation step
raises `OpenAI down`: processing reports `False`. -/
theorem C5_failure_handling_witness :
    (process_topic true
      ⟨Except.error "OpenAI down", Except.ok ⟨500⟩, Except.ok ([], []),
        Except.ok "alt", none, true, none⟩
      ⟨HttpResult.success (), HttpResult.success (), HttpResult.success ()⟩
      "Main Site" ⟨"t", "b", "l", [], "ex.com", 2⟩ ⟨[], []⟩).1 = false :=
  (C5_failure_handling true
    ⟨Except.error "OpenAI down", Except.ok ⟨500⟩, Except.ok ([], []),
      Except.ok "alt", none, true, none⟩
    ⟨HttpResult.success (), HttpResult.success (), HttpResult.success ()⟩
    "Main Site" ⟨"t", "b", "l", [], "ex.com", 2⟩ ⟨[], []⟩ "OpenAI down" rfl).2.1

theorem mark_topic_status_logRows (op : HttpResult Unit) (st : SheetState)
    (row : Nat) (status : String) (post_url : Option String) :
    (mark_topic_status op st row status post_url).logRows = st.logRows := by
  cases op <;> simp [mark_topic_status, pushStatus]

theorem log_post_result_logRows_success (st : SheetState) (pl : PostLog) :
    (log_post_result true (HttpResult.success ()) st pl).logRows =
      st.logRows ++ [pl] := by
  simp [log_post_result, pushLog]

theorem process_topic_logRows_length (env : StepEnv) (sheet : SheetEnv)
    (name : String) (topic : BlogTopic) (st : SheetState)
    (hlog : sheet.logOp = HttpResult.success ()) :
    ((process_topic true env sheet name topic st).2).logRows.length =
      st.logRows.length + 1 := by
  unfold process_topic
  cases hseo : env.seo <;>
    cases hcon : env.content <;>
      cases htax : env.taxonomy <;>
        cases halt : env.altText <;>
          cases hwp : env.wpConnected <;>
            cases hpost : env.postResult <;>
  simp [failFinish, hlog, mark_topic_status_logRows,
    log_post_result_logRows_success]

theorem processBatchGo_logRows (sites : List WPSite) :
    ∀ (items : List BatchItem),
    (∀ item ∈ items, item.sheet.logOp = HttpResult.success ()) →
    ∀ (stats : BatchStats) (st : SheetState),
    ((processBatchGo true sites items stats st).2).logRows.length =
      st.logRows.length + (items.filter (fun item =>
        (find_site_for_domain sites item.topic.site_domain).isSome)).length := by
  intro items
  induction items with
  | nil => intro _ stats st; simp [processBatchGo]
  | cons item rest ih =>
    intro h stats st
    have hhead : item.sheet.logOp = HttpResult.success () :=
      h item (List.mem_cons_self item rest)
    have hrest : ∀ it ∈ rest, it.sheet.logOp = HttpResult.success () :=
      fun it hmem => h it (List.mem_cons_of_mem item hmem)
    unfold processBatchGo
    cases hfind : find_site_for_domain sites item.topic.site_domain with
    | none =>
      rw [ih hrest]
      simp [List.filter_cons, hfind]
    | some site =>
      dsimp only
      cases hr : (process_topic true item.env item.sheet site.name item.topic st).1 with
      | true =>
        rw [if_pos rfl, ih hrest, process_topic_logRows_length _ _ _ _ _ hhead]
        simp [List.filter_cons, hfind]
        omega
      | false =>
        rw [if_neg (by simp), ih hrest,
          process_topic_logRows_length _ _ _ _ _ hhead]
        simp [List.filter_cons, hfind]
        omega

/-- Counterexample for C6: a batch of one WorkItem whose site domain
`other.org` matches no configured WordPress site, with sheet logging
enabled and every sheet operation succeeding; the WorkItem is counted
(total 1, failed 1) yet zero log entries are appended, not exactly
one. -/
theorem C6_counterexample :
    (process_batch true [⟨"Main", "https://ex.com"⟩]
      [⟨⟨"t", "b", "l", [], "other.org", 2⟩,
        ⟨Except.ok ⟨"T"⟩, Except.ok ⟨500⟩, Except.ok ([], []), Except.ok "alt",
          none, true, some ⟨"https://ex.com/p", 7⟩⟩,
        ⟨HttpResult.success (), HttpResult.success (), HttpResult.success ()⟩⟩]
      ⟨[], []⟩).2.logRows = []
  ∧ (process_batch true [⟨"Main", "https://ex.com"⟩]
      [⟨⟨"t", "b", "l", [], "other.org", 2⟩,
        ⟨Except.ok ⟨"T"⟩, Except.ok ⟨500⟩, Except.ok ([], []), Except.ok "alt",
          none, true, some ⟨"https://ex.com/p", 7⟩⟩,
        ⟨HttpResult.success (), HttpResult.success (), HttpResult.success ()⟩⟩]
      ⟨[], []⟩).1.total = 1
  ∧ (process_batch true [⟨"Main", "https://ex.com"⟩]
      [⟨⟨"t", "b", "l", [], "other.org", 2⟩,
        ⟨Except.ok ⟨"T"⟩, Except.ok ⟨500⟩, Except.ok ([], []), Except.ok "alt",
          none, true, some ⟨"https://ex.com/p", 7⟩⟩,
        ⟨HttpResult.success (), HttpResult.success (), HttpResult.success ()⟩⟩]
      ⟨[], []⟩).1.failed = 1 := by
  refine ⟨by decide, by decide, by decide⟩

/-- Claim C6 amended: with sheet logging enabled and the log appends
succeeding, exactly one log row is appended per WorkItem for which a
configured site matches its domain; a WorkItem whose domain matches no
configured site is counted as failed without any log entry. -/
theorem C6_one_log_per_matched_item (sites : List WPSite)
    (items : List BatchItem) (st : SheetState)
    (h : ∀ item ∈ items, item.sheet.logOp = HttpResult.success ()) :
    ((process_batch true sites items st).2).logRows.length =
      st.logRows.length + (items.filter (fun item =>
        (find_site_for_domain sites item.topic.site_domain).isSome)).length := by
  unfold process_batch
  exact processBatchGo_logRows sites items h _ st

/-- Witness for C6 at a concrete one-item batch whose domain matches the
configured site: exactly one log row is appended. -/
theorem C6_one_log_per_matched_item_witness :
    ((process_batch true [⟨"Main", "https://ex.com"⟩]
      [⟨⟨"t", "b", "l", [], "ex.com", 2⟩,
        ⟨Except.ok ⟨"T"⟩, Except.ok ⟨500⟩, Except.ok ([], []), Except.ok "alt",
          none, true, some ⟨"https://ex.com/p", 7⟩⟩,
        ⟨HttpResult.success (), HttpResult.success (), HttpResult.success ()⟩⟩]
      ⟨[], []⟩).2).logRows.length = 1 := by
  have h := C6_one_log_per_matched_item [⟨"Main", "https://ex.com"⟩]
    [⟨⟨"t", "b", "l", [], "ex.com", 2⟩,
      ⟨Except.ok ⟨"T"⟩, Except.ok ⟨500⟩, Except.ok ([], []), Except.ok "alt",
        none, true, some ⟨"https://ex.com/p", 7⟩⟩,
      ⟨HttpResult.success (), HttpResult.success (), HttpResult.success ()⟩⟩]
    ⟨[], []⟩ (by decide)
  rw [h]
  decide

theorem collectPending_none (rows : List SheetRow) : ∀ idx count,
    collectPending none rows idx count =
      ((List.enumFrom idx rows).filter
        (fun p => !statusExcluded p.2.status)).map
        (fun p => fromSheetRow p.2 p.1) := by
  induction rows with
  | nil => intro idx count; simp [collectPending, List.enumFrom]
  | cons row rest ih =>
    intro idx count
    unfold collectPending
    by_cases h : statusExcluded row.status
    · simp [h, List.enumFrom, List.filter_cons, ih]
    · simp [h, limitReached, List.enumFrom, List.filter_cons, ih]

/-- Claim C7: with no limit, the pending set is exactly the rows (taken
in order, numbered from sheet row 2) whose Status, stripped of
surrounding whitespace and lowercased, is none of `completed`,
`processing`, `failed`; rows with empty or `Pending` Status satisfy that
test and are included. -/
theorem C7_status_filter (rows : List SheetRow) :
    get_pending_topics rows none =
      ((List.enumFrom 2 rows).filter
        (fun p => !statusExcluded p.2.status)).map
        (fun p => fromSheetRow p.2 p.1)
  ∧ (∀ row : SheetRow, statusExcluded row.status =
      ["completed", "processing", "failed"].contains (pyLower (pyStrip row.status)))
  ∧ statusExcluded "Completed" = true
  ∧ statusExcluded " PROCESSING " = true
  ∧ statusExcluded "failed" = true
  ∧ statusExcluded "" = false
  ∧ statusExcluded "Pending" = false :=
  ⟨collectPending_none rows 2 0, fun _ => rfl, by decide, by decide, by decide,
    by decide, by decide⟩

theorem collectPending_some_zero (rows : List SheetRow) : ∀ idx count,
    collectPending (some 0) rows idx count = collectPending none rows idx count := by
  induction rows with
  | nil => intro idx count; simp [collectPending]
  | cons row rest ih =>
    intro idx count
    unfold collectPending
    simp [limitReached, ih]

theorem collectPending_some_length (n : Nat) (rows : List SheetRow) :
    ∀ idx count, count < n →
    (collectPending (some n) rows idx count).length ≤ n - count := by
  induction rows with
  | nil => intro idx count h; simp [collectPending]
  | cons row rest ih =>
    intro idx count h
    unfold collectPending
    cases hs : statusExcluded row.status with
    | true => rw [if_pos rfl]; exact ih _ _ h
    | false =>
      rw [if_neg (by simp)]
      cases hlim : limitReached (some n) (count + 1) with
      | true =>
        rw [if_pos rfl]
        simp only [List.length_singleton]
        omega
      | false =>
        rw [if_neg (by simp)]
        simp only [List.length_cons]
        simp [limitReached] at hlim
        have hrec := ih (idx + 1) (count + 1) (by omega)
        omega

/-- Claim C9: a limit of 0 is falsy in Python and ignored, so all
pending topics are returned exactly as with no limit; a positive limit
`n` bounds the result to at most `n` topics. -/
theorem C9_limit_semantics (rows : List SheetRow) :
    get_pending_topics rows (some 0) = get_pending_topics rows none
  ∧ ∀ n : Nat, 0 < n → (get_pending_topics rows (some n)).length ≤ n := by
  constructor
  · exact collectPending_some_zero rows 2 0
  · intro n hn
    have hlen := collectPending_some_length n rows 2 0 hn
    simpa using hlen

/-- Witness for C9 at a concrete two-row sheet and limit 1: at most one
topic is returned. -/
theorem C9_limit_semantics_witness :
    (get_pending_topics
      [⟨"t1", "b", "l", "", "ex.com", ""⟩, ⟨"t2", "b", "l", "", "ex.com", ""⟩]
      (some 1)).length ≤ 1 :=
  (C9_limit_semantics
    [⟨"t1", "b", "l", "", "ex.com", ""⟩, ⟨"t2", "b", "l", "", "ex.com", ""⟩]).2
    1 (by decide)

/-- Claim C8: whatever text the generation API returns, the alt text
produced by `generate_alt_text` has at most 125 characters. -/
theorem C8_alt_text_length (apiText : String) :
    (generate_alt_text apiText).length ≤ 125 := by
  have h : (generate_alt_text apiText).length =
      ((stripSet quoteChars (pyStrip apiText)).data.take 125).length := rfl
  rw [h, List.length_take]
  exact min_le_left _ _

/-- Claim C10: `mark_topic_status` and `log_post_result` catch every
raised sheet operation and return normally, leaving the sheet state
unchanged on failure and recording exactly their one update on success;
hence the reported outcome of `process_topic` does not depend on the
sheet-sink outcomes at all. -/
theorem C10_sheet_sink_isolation :
    (∀ (e : String) (st : SheetState) (row : Nat) (status : String)
        (post_url : Option String),
      mark_topic_status (HttpResult.failure e) st row status post_url = st)
  ∧ (∀ (op : HttpResult Unit) (st : SheetState) (row : Nat) (status : String)
        (post_url : Option String),
      mark_topic_status op st row status post_url = st
        ∨ mark_topic_status op st row status post_url = pushStatus st row status post_url)
  ∧ (∀ (lts : Bool) (e : String) (st : SheetState) (pl : PostLog),
      log_post_result lts (HttpResult.failure e) st pl = st)
  ∧ (∀ (lts : Bool) (op : HttpResult Unit) (st : SheetState) (pl : PostLog),
      log_post_result lts op st pl = st ∨ log_post_result lts op st pl = pushLog st pl)
  ∧ (∀ (lts : Bool) (env : StepEnv) (sheet1 sheet2 : SheetEnv) (name : String)
        (topic : BlogTopic) (st1 st2 : SheetState),
      (process_topic lts env sheet1 name topic st1).1 =
        (process_topic lts env sheet2 name topic st2).1) := by
  refine ⟨?_, ?_, ?_, ?_, ?_⟩
  · intro e st row status post_url; rfl
  · intro op st row status post_url
    cases op with
    | failure e => exact Or.inl rfl
    | success u => exact Or.inr rfl
  · intro lts e st pl
    cases lts <;> rfl
  · intro lts op st pl
    cases lts with
    | false => exact Or.inl rfl
    | true =>
      cases op with
      | failure e => exact Or.inl rfl
      | success u => exact Or.inr rfl
  · intro lts env sheet1 sheet2 name topic st1 st2
    unfold process_topic
    cases hseo : env.seo <;>
      cases hcon : env.content <;>
        cases htax : env.taxonomy <;>
          cases halt : env.altText <;>
            cases hwp : env.wpConnected <;>
              cases hpost : env.postResult <;>
    simp [failFinish]
